import Mathlib

/-!
Shallow embedding of the reading-progress-tracker backend
(src/backend/crud.py, src/backend/models.py, src/backend/schemas.py).

Modelling conventions:
- Page counters are Nat: pydantic validation on every entry point enforces
  current_page >= 0 (BookBase / BookUpdate / ProgressUpdate all carry ge=0)
  and total_pages > 0 (gt=0), and the crud functions themselves only write
  non-negative page values, so natural numbers are faithful.
- Timestamps (datetime.now / datetime.utcnow) are modelled as an abstract
  time value of type Nat supplied as an explicit "now" parameter; a missing
  timestamp column (NULL) is Option.none.  Python truthiness on a datetime
  column (if not db_book.started_at) is Option.isNone, since every datetime
  object is truthy.
- The database session is a List Book; get_book is the first record whose
  id matches (the primary key makes the match unique in a real database,
  which appears as a Nodup hypothesis where it matters).
- BookUpdate.model_dump(exclude_unset=True) is modelled by Option-valued
  fields: some v means the field was present in the request body.
- SQL float arithmetic in get_reading_stats is modelled with exact
  rationals; Python round(x, 2) is round-half-to-even at two decimals.
-/

/-- Reading status literals, validated by schemas.BookBase.validate_status
to be one of not_started / in_progress / completed. -/
inductive Status where
  | not_started
  | in_progress
  | completed
deriving DecidableEq, Repr

/-- models.Book: one row of the books table. -/
structure Book where
  id : Nat
  title : String
  author : String
  total_pages : Nat
  current_page : Nat
  status : Status
  cover_url : Option String
  genre : Option String
  notes : Option String
  rating : Option ℚ
  is_favorite : Bool
  started_at : Option Nat
  completed_at : Option Nat
  created_at : Nat
  updated_at : Nat
deriving DecidableEq, Repr

/-- schemas.BookCreate (= BookBase): payload for creating a book, with the
schema defaults current_page=0, status=not_started, is_favorite=False. -/
structure BookCreate where
  title : String
  author : String
  total_pages : Nat
  current_page : Nat := 0
  status : Status := Status.not_started
  cover_url : Option String := none
  genre : Option String := none
  notes : Option String := none
  rating : Option ℚ := none
  is_favorite : Bool := false
deriving DecidableEq, Repr

/-- schemas.BookUpdate: all fields optional; some v models a field present
in model_dump(exclude_unset=True). -/
structure BookUpdate where
  title : Option String := none
  author : Option String := none
  total_pages : Option Nat := none
  current_page : Option Nat := none
  status : Option Status := none
  cover_url : Option String := none
  genre : Option String := none
  notes : Option String := none
  rating : Option ℚ := none
  is_favorite : Option Bool := none
deriving DecidableEq, Repr

/-- schemas.BookStats: the aggregate statistics payload. -/
structure BookStats where
  total_books : Nat
  books_in_progress : Nat
  books_completed : Nat
  books_not_started : Nat
  total_pages_read : Nat
  average_progress : ℚ
deriving DecidableEq, Repr

/-- crud.create_book: builds Book(**book.model_dump()) (so started_at and
completed_at start as NULL, created_at and updated_at default to now), then
sets started_at when status is in_progress, and on status completed sets
completed_at and forces current_page = total_pages. -/
def create_book (now id : Nat) (book : BookCreate) : Book :=
  let db_book : Book :=
    { id := id
      title := book.title
      author := book.author
      total_pages := book.total_pages
      current_page := book.current_page
      status := book.status
      cover_url := book.cover_url
      genre := book.genre
      notes := book.notes
      rating := book.rating
      is_favorite := book.is_favorite
      started_at := none
      completed_at := none
      created_at := now
      updated_at := now }
  let db_book :=
    if db_book.status = Status.in_progress ∧ db_book.started_at = none then
      { db_book with started_at := some now }
    else db_book
  let db_book :=
    if db_book.status = Status.completed ∧ db_book.completed_at = none then
      { db_book with completed_at := some now, current_page := db_book.total_pages }
    else db_book
  db_book

/-- crud.get_book: first record whose id matches. -/
def get_book (db : List Book) (book_id : Nat) : Option Book :=
  db.find? (fun b => b.id == book_id)

/-- Body of crud.update_book after the existence check: the status-change
block (lines 85-98), the current_page auto-status block (lines 101-115),
the setattr loop over update_data (lines 118-119), and the updated_at
refresh (line 121), applied to one existing row. -/
def update_book_apply (now : Nat) (b0 : Book) (u : BookUpdate) : Book :=
  -- Handle status changes
  let b1 :=
    match u.status with
    | none => b0
    | some new_status =>
      -- Set started_at when moving to in_progress
      let bA :=
        if new_status = Status.in_progress ∧ b0.status ≠ Status.in_progress then
          if b0.started_at = none then { b0 with started_at := some now } else b0
        else b0
      -- Set completed_at when moving to completed
      if new_status = Status.completed ∧ bA.status ≠ Status.completed then
        let bB := { bA with completed_at := some now }
        -- Ensure current_page is set to total_pages
        if u.current_page = none then
          { bB with current_page := bB.total_pages }
        else bB
      else bA
  -- Handle current_page changes to auto-update status
  let b2 :=
    match u.current_page with
    | none => b1
    | some current_page =>
      let total_pages := u.total_pages.getD b1.total_pages
      if current_page = 0 ∧ u.status = none then
        { b1 with status := Status.not_started }
      else if current_page > 0 ∧ current_page < total_pages ∧ u.status = none then
        let bC := { b1 with status := Status.in_progress }
        if bC.started_at = none then { bC with started_at := some now } else bC
      else if current_page ≥ total_pages ∧ u.status = none then
        let bD := { b1 with status := Status.completed }
        if bD.completed_at = none then { bD with completed_at := some now } else bD
      else b1
  -- Update all fields from update_data
  let b3 :=
    { b2 with
      title := u.title.getD b2.title
      author := u.author.getD b2.author
      total_pages := u.total_pages.getD b2.total_pages
      current_page := u.current_page.getD b2.current_page
      status := u.status.getD b2.status
      cover_url := u.cover_url.map some |>.getD b2.cover_url
      genre := u.genre.map some |>.getD b2.genre
      notes := u.notes.map some |>.getD b2.notes
      rating := u.rating.map some |>.getD b2.rating
      is_favorite := u.is_favorite.getD b2.is_favorite }
  { b3 with updated_at := now }

/-- crud.update_book: None when the id does not exist (and the table is
untouched), else the updated row replaces the old one. -/
def update_book (now : Nat) (db : List Book) (book_id : Nat) (u : BookUpdate) :
    Option Book × List Book :=
  match get_book db book_id with
  | none => (none, db)
  | some b =>
    let b2 := update_book_apply now b u
    (some b2, db.map (fun x => if x.id == book_id then b2 else x))

/-- Body of crud.update_book_progress after the existence check: clamp with
min(current_page, total_pages), write current_page, recompute status and the
two timestamps from the clamped page (lines 140-154), refresh updated_at. -/
def update_book_progress_apply (now : Nat) (b : Book) (current_page : Nat) : Book :=
  -- Ensure current_page doesn't exceed total_pages
  let current_page := min current_page b.total_pages
  let db_book := { b with current_page := current_page }
  -- Auto-update status based on progress
  let db_book :=
    if current_page = 0 then
      { db_book with status := Status.not_started, started_at := none, completed_at := none }
    else if current_page < db_book.total_pages then
      let d1 := { db_book with status := Status.in_progress }
      let d2 := if d1.started_at = none then { d1 with started_at := some now } else d1
      { d2 with completed_at := none }
    else
      let d1 := { db_book with status := Status.completed }
      let d2 := if d1.started_at = none then { d1 with started_at := some now } else d1
      if d2.completed_at = none then { d2 with completed_at := some now } else d2
  { db_book with updated_at := now }

/-- crud.update_book_progress at the table level. -/
def update_book_progress (now : Nat) (db : List Book) (book_id : Nat)
    (current_page : Nat) : Option Book × List Book :=
  match get_book db book_id with
  | none => (none, db)
  | some b =>
    let b2 := update_book_progress_apply now b current_page
    (some b2, db.map (fun x => if x.id == book_id then b2 else x))

/-- Body of crud.update_book_notes after the existence check. -/
def update_book_notes_apply (now : Nat) (b : Book) (notes : String) : Book :=
  { b with notes := some notes, updated_at := now }

/-- crud.update_book_notes at the table level. -/
def update_book_notes (now : Nat) (db : List Book) (book_id : Nat)
    (notes : String) : Option Book × List Book :=
  match get_book db book_id with
  | none => (none, db)
  | some b =>
    let b2 := update_book_notes_apply now b notes
    (some b2, db.map (fun x => if x.id == book_id then b2 else x))

/-- crud.delete_book: False when the id does not exist (table untouched),
else the found row is deleted and True returned. -/
def delete_book (db : List Book) (book_id : Nat) : Bool × List Book :=
  match get_book db book_id with
  | none => (false, db)
  | some _ => (true, db.eraseP (fun b => b.id == book_id))

/-- Python round(x, 2) scaled to integers: round half to even. -/
def roundHalfEven (q : ℚ) : ℤ :=
  let f := ⌊q⌋
  if q - f < 1 / 2 then f
  else if q - f > 1 / 2 then f + 1
  else if f % 2 = 0 then f else f + 1

/-- Python round(x, 2): round to two decimal places, ties to even. -/
def round2 (q : ℚ) : ℚ :=
  (roundHalfEven (q * 100) : ℚ) / 100

/-- The SQL case expression of crud.get_reading_stats lines 216-219:
per-book progress percentage, 0 when total_pages is not positive. -/
def progressPct (b : Book) : ℚ :=
  if b.total_pages > 0 then (b.current_page * 100 : ℚ) / b.total_pages else 0

/-- crud.get_reading_stats: counts, count per status, sum of current_page,
and round(sum of percentages / total_books, 2) when the table is non-empty,
0.0 otherwise. -/
def get_reading_stats (db : List Book) : BookStats :=
  let total_books := db.length
  let books_not_started := (db.filter (fun b => b.status == Status.not_started)).length
  let books_in_progress := (db.filter (fun b => b.status == Status.in_progress)).length
  let books_completed := (db.filter (fun b => b.status == Status.completed)).length
  let total_pages_read := (db.map (fun b => b.current_page)).sum
  let average_progress : ℚ :=
    if total_books > 0 then
      round2 ((db.map progressPct).sum / (total_books : ℚ))
    else 0
  { total_books := total_books
    books_in_progress := books_in_progress
    books_completed := books_completed
    books_not_started := books_not_started
    total_pages_read := total_pages_read
    average_progress := average_progress }

/-- The average-progress formula as the specification words it: the mean
over all books of current_page / total_pages × 100, a book with
total_pages = 0 contributing 0, rounded to 2 decimal places, and 0.0 for
the empty collection.  Stated independently of get_reading_stats to compare
the code against the specification. -/
def specAverageProgress (db : List Book) : ℚ :=
  if db.length = 0 then 0
  else
    round2
      ((db.map (fun b =>
          if b.total_pages = 0 then 0
          else (b.current_page : ℚ) / (b.total_pages : ℚ) * 100)).sum / (db.length : ℚ))

/-! ### Fixtures used by counterexamples and witnesses -/

/-- A completed book with both timestamps set; it satisfies the
current_page = total_pages invariant. -/
def bookDone : Book :=
  { id := 1, title := "Dune", author := "Herbert", total_pages := 100,
    current_page := 100, status := Status.completed, cover_url := none,
    genre := none, notes := none, rating := none, is_favorite := false,
    started_at := some 5, completed_at := some 6, created_at := 0, updated_at := 0 }

/-- A fresh not-started book with no timestamps. -/
def bookFresh : Book :=
  { id := 2, title := "Dune", author := "Herbert", total_pages := 100,
    current_page := 0, status := Status.not_started, cover_url := none,
    genre := none, notes := none, rating := none, is_favorite := false,
    started_at := none, completed_at := none, created_at := 0, updated_at := 0 }

/-- A creation payload with progress strictly between 0 and total. -/
def createMid : BookCreate :=
  { title := "Dune", author := "Herbert", total_pages := 500, current_page := 50 }

/-! ### Claims -/

/-- Claim C1, counterexample: the invariant 0 <= current_page <= total_pages
does not survive every reconciler operation.  GeneralUpdate with the valid
partial field total_pages = 50 (gt=0 passes validation) on an invariant-
satisfying book with current_page = 100 leaves current_page = 100 above the
new total_pages = 50: update_book never reconciles current_page against a
shrunk page count. -/
theorem C1_counterexample :
    ¬ ((update_book_apply 10 bookDone { total_pages := some 50 }).current_page ≤
        (update_book_apply 10 bookDone { total_pages := some 50 }).total_pages) := by
  decide

/-- Claim C1 as amended: ProgressUpdate and NotesUpdate always preserve
current_page <= total_pages; Create establishes it whenever the payload has
current_page <= total_pages or status = completed; GeneralUpdate preserves
it whenever the partial fields contain neither current_page nor total_pages.
(0 <= current_page is automatic: every write is a natural number.) -/
theorem C1_amended_invariant (now : Nat) (b : Book)
    (hb : b.current_page ≤ b.total_pages) :
    (∀ p, (update_book_progress_apply now b p).current_page ≤
        (update_book_progress_apply now b p).total_pages) ∧
    (∀ s, (update_book_notes_apply now b s).current_page ≤
        (update_book_notes_apply now b s).total_pages) ∧
    (∀ id input, input.current_page ≤ input.total_pages ∨ input.status = Status.completed →
        (create_book now id input).current_page ≤ (create_book now id input).total_pages) ∧
    (∀ u : BookUpdate, u.current_page = none → u.total_pages = none →
        (update_book_apply now b u).current_page ≤ (update_book_apply now b u).total_pages) := by
  refine ⟨?_, ?_, ?_, ?_⟩
  · intro p
    simp only [update_book_progress_apply]
    split_ifs <;> simp
  · intro s
    simpa [update_book_notes_apply] using hb
  · intro id input h
    simp only [create_book]
    split_ifs <;> rcases h with h | h <;> simp_all
  · intro u hcp htp
    rcases hs : u.status with _ | s
    · simp [update_book_apply, hs, hcp, htp, hb]
    · simp only [update_book_apply, hs, hcp, htp]
      split_ifs <;> simp_all

/-- Claim C1 amended, witness at concrete inputs. -/
theorem C1_amended_invariant_witness :
    (update_book_progress_apply 10 bookFresh 3).current_page ≤
      (update_book_progress_apply 10 bookFresh 3).total_pages ∧
    (create_book 10 7 createMid).current_page ≤ (create_book 10 7 createMid).total_pages :=
  ⟨(C1_amended_invariant 10 bookFresh (by decide)).1 3,
    (C1_amended_invariant 10 bookFresh (by decide)).2.2.1 7 createMid (Or.inl (by decide))⟩

/-- Claim C2, counterexample: GeneralUpdate regressing current_page from 100
to 50 on a completed book leaves completed_at = some 6 set even though the
resulting current_page is strictly below total_pages: only the dedicated
progress path clears completed_at on regression. -/
theorem C2_counterexample :
    (update_book_apply 10 bookDone { current_page := some 50 }).current_page <
      (update_book_apply 10 bookDone { current_page := some 50 }).total_pages ∧
    (update_book_apply 10 bookDone { current_page := some 50 }).completed_at ≠ none := by
  decide

/-- Claim C2 as amended: after ProgressUpdate and after Create,
current_page < total_pages implies completed_at is unset; GeneralUpdate does
not clear completed_at when current_page regresses below total_pages. -/
theorem C2_amended_regress_clears (now : Nat) (b : Book) (p : Nat) :
    ((update_book_progress_apply now b p).current_page <
        (update_book_progress_apply now b p).total_pages →
      (update_book_progress_apply now b p).completed_at = none) ∧
    (∀ id input, (create_book now id input).current_page <
        (create_book now id input).total_pages →
      (create_book now id input).completed_at = none) := by
  constructor
  · intro h
    simp only [update_book_progress_apply] at *
    split_ifs at * <;> simp_all
  · intro id input h
    simp only [create_book] at *
    split_ifs at * <;> simp_all

/-- Claim C2 amended, witness: regressing bookDone to page 50 through the
progress path clears completed_at. -/
theorem C2_amended_regress_clears_witness :
    (update_book_progress_apply 10 bookDone 50).completed_at = none :=
  (C2_amended_regress_clears 10 bookDone 50).1 (by decide)

/-- Claim C3, counterexample: GeneralUpdate with partial fields
status = completed and total_pages = 50 (no current_page) on a not-started
book with total_pages = 100 forces current_page to the OLD total 100, after
which the setattr loop writes total_pages = 50: the resulting state has
current_page = 100 but total_pages = 50, so current_page = total_pages
fails. -/
theorem C3_counterexample :
    (update_book_apply 10 bookFresh
        { status := some Status.completed, total_pages := some 50 }).current_page ≠
      (update_book_apply 10 bookFresh
        { status := some Status.completed, total_pages := some 50 }).total_pages := by
  decide

/-- Claim C3 as amended: GeneralUpdate with status = completed differing
from the existing status and without current_page always overwrites
completed_at with now and forces current_page to the EXISTING total_pages;
hence current_page = total_pages holds in the result whenever total_pages
is not also among the partial fields. -/
theorem C3_amended_complete_forces (now : Nat) (b : Book) (u : BookUpdate)
    (hs : u.status = some Status.completed) (hb : b.status ≠ Status.completed)
    (hcp : u.current_page = none) :
    (update_book_apply now b u).completed_at = some now ∧
    (update_book_apply now b u).current_page = b.total_pages ∧
    (u.total_pages = none →
      (update_book_apply now b u).current_page = (update_book_apply now b u).total_pages) := by
  simp only [update_book_apply, hs, hcp]
  split_ifs <;> simp_all

/-- Claim C3 amended, witness: completing bookFresh without current_page
sets completed_at to now and current_page to the existing total 100. -/
theorem C3_amended_complete_forces_witness :
    (update_book_apply 10 bookFresh { status := some Status.completed }).completed_at = some 10 ∧
    (update_book_apply 10 bookFresh { status := some Status.completed }).current_page = 100 :=
  ⟨(C3_amended_complete_forces 10 bookFresh { status := some Status.completed }
      rfl (by decide) rfl).1,
    (C3_amended_complete_forces 10 bookFresh { status := some Status.completed }
      rfl (by decide) rfl).2.1⟩

/-- Claim C4, confirmed: ProgressUpdate with requested page 0 always yields
status not_started with both started_at and completed_at cleared, whatever
the prior timestamps: min 0 total_pages = 0 selects the full-reset branch. -/
theorem C4_progress_zero_resets (now : Nat) (b : Book) :
    (update_book_progress_apply now b 0).status = Status.not_started ∧
    (update_book_progress_apply now b 0).started_at = none ∧
    (update_book_progress_apply now b 0).completed_at = none := by
  simp [update_book_progress_apply]

/-- Claim C5, confirmed: for a book with positive total_pages (every stored
book, since the schema requires gt=0), ProgressUpdate clamps the requested
page to [0, total_pages] without erroring, and an overshoot or exact hit
(requested_page >= total_pages) yields status completed, current_page equal
to total_pages, and both timestamps set, back-filling started_at. -/
theorem C5_progress_clamp_complete (now : Nat) (b : Book) (p : Nat)
    (htp : 0 < b.total_pages) :
    (update_book_progress_apply now b p).current_page = min p b.total_pages ∧
    (update_book_progress_apply now b p).current_page ≤
      (update_book_progress_apply now b p).total_pages ∧
    (b.total_pages ≤ p →
      (update_book_progress_apply now b p).status = Status.completed ∧
      (update_book_progress_apply now b p).current_page =
        (update_book_progress_apply now b p).total_pages ∧
      (update_book_progress_apply now b p).started_at.isSome = true ∧
      (update_book_progress_apply now b p).completed_at.isSome = true) := by
  simp only [update_book_progress_apply]
  rcases Nat.le_total p b.total_pages with hle | hle
  · rw [Nat.min_eq_left hle]
    split_ifs <;> simp_all [Option.isSome_iff_ne_none] <;> omega
  · rw [Nat.min_eq_right hle]
    split_ifs <;> simp_all [Option.isSome_iff_ne_none]

/-- Claim C5, witness: requesting page 700 of a 100-page fresh book caps at
100 and completes the book with both timestamps back-filled. -/
theorem C5_progress_clamp_complete_witness :
    (update_book_progress_apply 10 bookFresh 700).current_page = min 700 100 ∧
    (update_book_progress_apply 10 bookFresh 700).current_page ≤
      (update_book_progress_apply 10 bookFresh 700).total_pages ∧
    (100 ≤ 700 →
      (update_book_progress_apply 10 bookFresh 700).status = Status.completed ∧
      (update_book_progress_apply 10 bookFresh 700).current_page =
        (update_book_progress_apply 10 bookFresh 700).total_pages ∧
      (update_book_progress_apply 10 bookFresh 700).started_at.isSome = true ∧
      (update_book_progress_apply 10 bookFresh 700).completed_at.isSome = true) :=
  C5_progress_clamp_complete 10 bookFresh 700 (by decide)

/-- Closed form of update_book_progress_apply: reset, in-progress and
completed branches selected by the clamped page. -/
theorem progress_apply_eq (now : Nat) (b : Book) (p : Nat) :
    update_book_progress_apply now b p =
      if min p b.total_pages = 0 then
        { b with current_page := 0, status := Status.not_started,
                 started_at := none, completed_at := none, updated_at := now }
      else if min p b.total_pages < b.total_pages then
        { b with current_page := min p b.total_pages, status := Status.in_progress,
                 started_at := if b.started_at = none then some now else b.started_at,
                 completed_at := none, updated_at := now }
      else
        { b with current_page := min p b.total_pages, status := Status.completed,
                 started_at := if b.started_at = none then some now else b.started_at,
                 completed_at := if b.completed_at = none then some now else b.completed_at,
                 updated_at := now } := by
  simp only [update_book_progress_apply]
  split_ifs <;> simp_all

/-- Claim C6, confirmed: ProgressUpdate is idempotent up to updated_at:
running it twice with the same page, at times t1 then t2, produces exactly
the once-updated state with updated_at moved to t2. -/
theorem C6_progress_idempotent (t1 t2 : Nat) (b : Book) (p : Nat) :
    update_book_progress_apply t2 (update_book_progress_apply t1 b p) p =
      { update_book_progress_apply t1 b p with updated_at := t2 } := by
  rw [progress_apply_eq t1 b p]
  rcases hs : b.started_at with _ | s <;> rcases hc : b.completed_at with _ | c <;>
    split_ifs with h1 h2 <;> rw [progress_apply_eq] <;> simp_all

/-- Claim C7, confirmed: GeneralUpdate with current_page present and status
absent derives the status from the new current_page against the effective
total_pages (from the partial fields when provided, else the existing one,
positive for every stored book): 0 gives not_started with both timestamps
untouched; strictly between 0 and total gives in_progress setting
started_at to now only if unset; at or above total gives completed setting
completed_at to now only if unset. -/
theorem C7_derive_status (now : Nat) (b : Book) (u : BookUpdate) (cp : Nat)
    (hcp : u.current_page = some cp) (hs : u.status = none)
    (htp : 0 < u.total_pages.getD b.total_pages) :
    (update_book_apply now b u).current_page = cp ∧
    (update_book_apply now b u).total_pages = u.total_pages.getD b.total_pages ∧
    (cp = 0 →
      (update_book_apply now b u).status = Status.not_started ∧
      (update_book_apply now b u).started_at = b.started_at ∧
      (update_book_apply now b u).completed_at = b.completed_at) ∧
    (0 < cp → cp < u.total_pages.getD b.total_pages →
      (update_book_apply now b u).status = Status.in_progress ∧
      (update_book_apply now b u).started_at =
        (if b.started_at = none then some now else b.started_at) ∧
      (update_book_apply now b u).completed_at = b.completed_at) ∧
    (u.total_pages.getD b.total_pages ≤ cp →
      (update_book_apply now b u).status = Status.completed ∧
      (update_book_apply now b u).completed_at =
        (if b.completed_at = none then some now else b.completed_at) ∧
      (update_book_apply now b u).started_at = b.started_at) := by
  simp only [update_book_apply, hcp, hs]
  split_ifs <;> simp_all <;> omega

/-- Claim C7, witness: sending current_page = 30 alone to the completed
bookDone regresses it to in_progress at page 30. -/
theorem C7_derive_status_witness :
    (update_book_apply 10 bookDone { current_page := some 30 }).status =
      Status.in_progress ∧
    (update_book_apply 10 bookDone { current_page := some 30 }).current_page = 30 :=
  ⟨((C7_derive_status 10 bookDone { current_page := some 30 } 30 rfl rfl
      (by decide)).2.2.2.1 (by decide) (by decide)).1,
    (C7_derive_status 10 bookDone { current_page := some 30 } 30 rfl rfl
      (by decide)).1⟩

/-- After erasing the record found for book_id from a table whose ids are
distinct, no record with that id remains. -/
theorem no_id_after_eraseP (db : List Book) (book_id : Nat)
    (hnd : (db.map Book.id).Nodup) :
    ∀ x ∈ db.eraseP (fun b => b.id == book_id), x.id ≠ book_id := by
  induction db with
  | nil => simp
  | cons h t ih =>
    simp only [List.map_cons, List.nodup_cons] at hnd
    obtain ⟨hh, ht⟩ := hnd
    by_cases hm : h.id = book_id
    · intro x hx
      rw [List.eraseP_cons_of_pos (by simpa using hm)] at hx
      intro hxid
      exact hh (hm ▸ hxid ▸ List.mem_map_of_mem Book.id hx)
    · intro x hx
      rw [List.eraseP_cons_of_neg (by simpa using hm)] at hx
      rcases List.mem_cons.mp hx with hx | hx
      · exact hx ▸ hm
      · exact ih ht x hx

/-- Claim C8, confirmed: on a nonexistent id every id-taking operation
signals NotFound (None for the updates, False for delete) and leaves the
table unchanged; delete on an existing id returns True and removes the
record: one row fewer, and, with distinct primary keys, no row with that
id remains. -/
theorem C8_missing_id (now : Nat) (db : List Book) (book_id : Nat)
    (u : BookUpdate) (p : Nat) (s : String) :
    (get_book db book_id = none →
      update_book now db book_id u = (none, db) ∧
      update_book_progress now db book_id p = (none, db) ∧
      update_book_notes now db book_id s = (none, db) ∧
      delete_book db book_id = (false, db)) ∧
    (∀ b, get_book db book_id = some b →
      (delete_book db book_id).1 = true ∧
      (delete_book db book_id).2.length + 1 = db.length ∧
      ((db.map Book.id).Nodup →
        ∀ x ∈ (delete_book db book_id).2, x.id ≠ book_id)) := by
  constructor
  · intro h
    simp [update_book, update_book_progress, update_book_notes, delete_book, h]
  · intro b hb
    have hb2 : db.find? (fun x => x.id == book_id) = some b := hb
    refine ⟨?_, ?_, ?_⟩
    · simp [delete_book, hb]
    · simp only [delete_book, hb]
      have hpb : (b.id == book_id) = true :=
        @List.find?_some Book (fun x => x.id == book_id) b db hb2
      exact List.length_eraseP_add_one (List.mem_of_find?_eq_some hb2) hpb
    · intro hnd
      simp only [delete_book, hb]
      exact no_id_after_eraseP db book_id hnd

/-- Claim C8, witness: deleting id 999 from the one-row table [bookDone]
reports False and changes nothing; deleting id 1 reports True. -/
theorem C8_missing_id_witness :
    delete_book [bookDone] 999 = (false, [bookDone]) ∧
    (delete_book [bookDone] 1).1 = true :=
  ⟨((C8_missing_id 0 [bookDone] 999 {} 0 "x").1 rfl).2.2.2,
    ((C8_missing_id 0 [bookDone] 1 {} 0 "x").2 bookDone rfl).1⟩

/-- Claim C9, confirmed: average_progress computed by get_reading_stats
(sum of the per-book SQL case percentages divided by the count, rounded)
equals the mean of current_page / total_pages × 100 over all books with a
zero-total book contributing 0, rounded to 2 decimal places, exactly as the
specification words it; and the empty collection yields all-zero counts,
total_pages_read = 0 and average_progress = 0. -/
theorem C9_stats_average (db : List Book) :
    (get_reading_stats db).average_progress = specAverageProgress db ∧
    get_reading_stats [] =
      { total_books := 0, books_in_progress := 0, books_completed := 0,
        books_not_started := 0, total_pages_read := 0, average_progress := 0 } := by
  constructor
  · have hfun : progressPct = (fun b : Book =>
        if b.total_pages = 0 then 0
        else (b.current_page : ℚ) / (b.total_pages : ℚ) * 100) := by
      funext x
      simp only [progressPct]
      rcases Nat.eq_zero_or_pos x.total_pages with h0 | h0
      · simp [h0]
      · rw [if_pos h0, if_neg (Nat.pos_iff_ne_zero.mp h0), mul_div_right_comm]
    simp only [get_reading_stats, specAverageProgress, hfun]
    rcases db with _ | ⟨h, t⟩
    · simp
    · simp
  · rfl

/-- Claim C10, confirmed: creation never derives status from current_page:
a payload with 0 < current_page < total_pages and status not_started
(whether defaulted or explicit) is stored as not_started with started_at
unset and current_page exactly as supplied. -/
theorem C10_create_keeps_status (now id : Nat) (input : BookCreate)
    (hst : input.status = Status.not_started)
    (_h1 : 0 < input.current_page) (_h2 : input.current_page < input.total_pages) :
    (create_book now id input).status = Status.not_started ∧
    (create_book now id input).started_at = none ∧
    (create_book now id input).current_page = input.current_page := by
  simp [create_book, hst]

/-- Claim C10, witness: creating with 50 of 500 pages read and the default
status yields not_started at page 50 with no start time. -/
theorem C10_create_keeps_status_witness :
    (create_book 10 7 createMid).status = Status.not_started ∧
    (create_book 10 7 createMid).started_at = none ∧
    (create_book 10 7 createMid).current_page = createMid.current_page :=
  C10_create_keeps_status 10 7 createMid rfl (by decide) (by decide)
